import Mathlib

/-!
Shallow embedding of the `create-square-invoice` Supabase edge function
(`src/supabase/functions/create-square-invoice/index.ts`) together with the
rate-limit SQL helpers defined in the migration appended to the same file.

The handler is an HTTP request processor whose external collaborators
(identity provider, relational store, Square API) are modelled as oracles in
a `World` record: each oracle field holds the answer the collaborator would
return when the handler calls it.  The handler itself is translated line by
line into a pure function `handle` that returns the HTTP outcome together
with the full trace of effects it performed: Square API calls (with their
idempotency keys), ledger writes, and audit-log write attempts.
-/

namespace CultiveraSquare

/-- Ledger record status, mirroring the CHECK constraint on
`processed_orders.status`: pending, processing, completed, failed. -/
inductive OrderStatus
  | pending
  | processing
  | completed
  | failed
deriving DecidableEq, Repr

/-- The parsed JSON request body (`CreateInvoiceRequest`).  A missing or
falsy string field is modelled as `""`; a missing `amount_cents` is `none`
(the code checks `amount_cents === undefined`).  The numeric amount is
modelled as a rational, standing for a JS number; `Number.isInteger` becomes
`den = 1`. -/
structure RequestBody where
  order_number : String
  customer_name : String
  customer_email : String
  amount_cents : Option ℚ
  request_timestamp : String
deriving DecidableEq, Repr

/-- The inbound HTTP request: method, optional Authorization header, and the
body (`none` models a JSON parse failure in `req.json()`). -/
structure Req where
  method : String
  authHeader : Option String
  body : Option RequestBody
deriving DecidableEq, Repr

/-- The four environment variables read at the start of the handler. -/
structure Env where
  supabaseUrl : Option String
  serviceKey : Option String
  squareToken : Option String
  locationId : Option String
deriving DecidableEq, Repr

/-- Outcome of `supabase.auth.getUser(jwt)`: an optional error message and an
optional user id.  (User email is not needed by any claim.) -/
structure AuthOutcome where
  errorMsg : Option String
  user : Option String
deriving DecidableEq, Repr

/-- A row of `invoice_audit_log` as seen by the two rate-limit SQL helpers:
the columns they filter on (`user_id`, `result`, `timestamp` in seconds). -/
structure DbAuditRow where
  user_id : Option String
  result : String
  timestamp : ℚ
deriving DecidableEq, Repr

/-- An existing `processed_orders` row as returned by the duplicate-check
select, restricted to the fields the handler reads. -/
structure OrderRecord where
  id : String
  status : OrderStatus
  steps_completed : List String
deriving DecidableEq, Repr

/-- Outcome of the fresh ledger insert: success with the new row id, a unique
constraint violation (Postgres error code 23505), or any other error (which
the handler re-throws). -/
inductive InsertOutcome
  | ok (id : String)
  | uniqueViolation
  | otherError (msg : String)
deriving DecidableEq, Repr

/-- The six Square API endpoints the handler can hit. -/
inductive SqEndpoint
  | searchCustomers
  | createCustomer
  | createOrder
  | createInvoice
  | getInvoice
  | publishInvoice
deriving DecidableEq, Repr

/-- One outbound call to the Square API: which endpoint, and the
Idempotency-Key header if one was sent. -/
structure SquareCall where
  endpoint : SqEndpoint
  idemKey : Option String
deriving DecidableEq, Repr

/-- Fields of a `processed_orders` UPDATE statement (only the columns the
handler ever writes; `none` means the column is not touched by that update).
`completed_at` is a flag since only its presence matters. -/
structure LedgerUpdate where
  status : Option OrderStatus := none
  steps : Option (List String) := none
  error_message : Option String := none
  square_customer_id : Option String := none
  square_order_id : Option String := none
  square_invoice_id : Option String := none
  completed_at : Bool := false
deriving DecidableEq, Repr

/-- A successful write to the `processed_orders` ledger.  The insert records
the fields relevant to the claims (order number, initial status, idempotency
key); the DB column default gives a fresh row `steps_completed = []`. -/
inductive LedgerOp
  | insert (order_number : String) (status : OrderStatus) (idemKey : String)
  | update (id : String) (u : LedgerUpdate)
deriving DecidableEq, Repr

/-- An `invoice_audit_log` entry, projected to the fields the claims are
about.  Interpolated message strings are kept where they are constant in the
source and abbreviated otherwise. -/
structure AuditEntry where
  result : String
  error_code : Option String
  error_message : Option String
  steps_completed : Option (List String)
deriving DecidableEq, Repr

/-- The JSON HTTP response: status code, `success` flag, `error.code` and
`error.retry_after` when present. -/
structure HttpResp where
  status : Nat
  success : Bool
  errorCode : Option String
  retryAfter : Option Nat
deriving DecidableEq, Repr

/-- How a request terminates: with a computed HTTP response, or by an
exception escaping the handler (the `throw insertError` path). -/
inductive Outcome
  | resp (r : HttpResp)
  | thrown (msg : String)
deriving DecidableEq, Repr

deriving instance DecidableEq for Except

/-- The world of external collaborators, as oracles.  `auditOk` tells whether
the (at most one) audit-log insert of this request succeeds; the source wraps
that insert in try/catch, so it must not influence anything else. -/
structure World where
  auth : AuthOutcome
  isAuthorized : Bool
  auditTable : List DbAuditRow
  dbNow : ℚ
  nowMs : ℚ
  parsedTimestamp : Option ℚ
  existingOrder : Option OrderRecord
  insertResult : InsertOutcome
  searchR : Except String (Option String)
  createCustR : Except String String
  createOrdR : Except String String
  createInvR : Except String (String × String)
  getInvR : Except String Nat
  publishR : Except String Unit
  auditOk : Bool
deriving DecidableEq, Repr

/-- Result of one request: the outcome plus the trace of effects.
`auditAttempts` are the audit writes the handler attempted (the invariant
claims are about these); `auditPersisted` is what actually landed in the
table given `World.auditOk`. -/
structure HResult where
  outcome : Outcome
  squareCalls : List SquareCall
  ledgerOps : List LedgerOp
  auditAttempts : List AuditEntry
  auditPersisted : List AuditEntry
deriving DecidableEq, Repr

/-! ## Validators and constants (translated from the source) -/

/-- Constant `REPLAY_WINDOW_SECONDS = 120`. -/
def REPLAY_WINDOW_SECONDS : ℚ := 120

/-- Constant `MAX_AMOUNT_CENTS = 5000000`. -/
def MAX_AMOUNT_CENTS : ℚ := 5000000

/-- Constant `USER_RATE_LIMIT = 10` per hour. -/
def USER_RATE_LIMIT : Nat := 10

/-- Constant `GLOBAL_RATE_LIMIT = 50` per hour. -/
def GLOBAL_RATE_LIMIT : Nat := 50

/-- Split a character list at every at-sign (the shape of the
source splitting the string at the at-sign). -/
def splitAts : List Char → List (List Char)
  | [] => [[]]
  | c :: rest =>
    match splitAts rest with
    | [] => [[]]
    | h :: t => if c = '@' then [] :: h :: t else (c :: h) :: t

/-- Translation of `isValidEmail`, i.e. the regex
`^[^\s@]+@[^\s@]+\.[^\s@]+$`: exactly one at-sign; a nonempty local part; a
domain part containing a dot that has at least one character on each side;
and no whitespace anywhere.  (The classes `[^\s@]` exclude exactly
whitespace and the at-sign, and allow further dots, so the regex matches iff
such a decomposition at some dot exists.) -/
def isValidEmail (s : String) : Bool :=
  match splitAts s.toList with
  | [lo, dom] =>
      (lo != []) && lo.all (fun c => !c.isWhitespace)
        && dom.all (fun c => !c.isWhitespace)
        && ((dom.drop 1).dropLast.contains '.')
  | _ => false

/-- Translation of `isValidOrderNumber`: the regex `^[A-Za-z0-9-]+$`
together with `0 < length ≤ 50`. -/
def isValidOrderNumber (s : String) : Bool :=
  s.toList.all (fun c => c.isAlphanum || c == '-')
    && decide (0 < s.length) && decide (s.length ≤ 50)

/-- Whether `pat` occurs as a contiguous run inside the character list. -/
def infixOfChars (pat : List Char) : List Char → Bool
  | [] => pat.isEmpty
  | c :: rest => pat.isPrefixOf (c :: rest) || infixOfChars pat rest

/-- Translation of the check that the provider error message includes the
word `expired`: a substring test. -/
def containsExpired (m : String) : Bool :=
  infixOfChars "expired".toList m.toList

/-- Translation of the check that the Authorization header starts with the
seven characters `Bearer` followed by a space. -/
def startsWithBearer (s : String) : Bool :=
  "Bearer ".toList.isPrefixOf s.toList

/-- The error code chosen when token verification fails (lines 438 and 442
of the source): `AUTH_EXPIRED` when the provider message contains
`expired`, `AUTH_INVALID` otherwise (also when there is no message). -/
def authFailCode (em : Option String) : String :=
  match em with
  | some m => if containsExpired m then "AUTH_EXPIRED" else "AUTH_INVALID"
  | none => "AUTH_INVALID"

/-! ## Rate-limit SQL helpers (from the migration) -/

/-- The row filter shared by both rate-limit functions: timestamp within the
trailing hour and result in (SUCCESS, FAILURE). -/
def rowCounted (dbNow : ℚ) (r : DbAuditRow) : Bool :=
  decide (dbNow - 3600 < r.timestamp)
    && (r.result == "SUCCESS" || r.result == "FAILURE")

/-- Translation of `public.get_user_rate_limit_count`: the count of counted
rows for one user. -/
def get_user_rate_limit_count (tbl : List DbAuditRow) (dbNow : ℚ)
    (uid : String) : Nat :=
  (tbl.filter (fun r => (r.user_id == some uid) && rowCounted dbNow r)).length

/-- Translation of `public.get_global_rate_limit_count`: the count of
counted rows overall. -/
def get_global_rate_limit_count (tbl : List DbAuditRow) (dbNow : ℚ) : Nat :=
  (tbl.filter (fun r => rowCounted dbNow r)).length

/-! ## Square API calls of the saga -/

/-- Call `POST /customers/search` (no idempotency key). -/
def searchCall : SquareCall := { endpoint := .searchCustomers, idemKey := none }

/-- Call `POST /customers` with key `cust-` followed by the order number. -/
def createCustCall (onum : String) : SquareCall :=
  { endpoint := .createCustomer, idemKey := some ("cust-" ++ onum) }

/-- Call `POST /orders` with key `ord-` followed by the order number. -/
def createOrdCall (onum : String) : SquareCall :=
  { endpoint := .createOrder, idemKey := some ("ord-" ++ onum) }

/-- Call `POST /invoices` with key `inv-` followed by the order number. -/
def createInvCall (onum : String) : SquareCall :=
  { endpoint := .createInvoice, idemKey := some ("inv-" ++ onum) }

/-- Call `GET /invoices/:id` (no idempotency key). -/
def getInvCall : SquareCall := { endpoint := .getInvoice, idemKey := none }

/-- Call `POST /invoices/:id/publish` with key `pub-` followed by the order
number. -/
def publishCall (onum : String) : SquareCall :=
  { endpoint := .publishInvoice, idemKey := some ("pub-" ++ onum) }

/-! ## Saga executor (source lines 719 to 762) -/

/-- Intermediate saga result: `result` is the success payload
(customer id, order id, invoice id, invoice number) or the thrown error
message; `steps` is the final value of `stepsCompleted`; `cid`, `oid`,
`iid` are the Square ids obtained so far; `calls` and `updates` are the
Square calls and ledger progress updates performed, in order. -/
structure SagaRes where
  result : Except String (String × String × String × String)
  steps : List String
  cid : Option String
  oid : Option String
  iid : Option String
  calls : List SquareCall
  updates : List LedgerOp
deriving DecidableEq, Repr

/-- Saga from step 4 on (create invoice, get version, publish), entered with
the customer and order ids in hand and their progress updates performed. -/
def afterOrder (w : World) (onum pid : String) (steps : List String)
    (cid oid : String) (calls : List SquareCall) (ups : List LedgerOp) :
    SagaRes :=
  match w.createInvR with
  | .error d =>
      { result := .error ("Invoice creation failed: " ++ d), steps := steps,
        cid := some cid, oid := some oid, iid := none,
        calls := calls ++ [createInvCall onum], updates := ups }
  | .ok (iid, inum) =>
    let steps2 := steps ++ ["invoice_created"]
    let ups2 := ups ++
      [LedgerOp.update pid { square_invoice_id := some iid, steps := some steps2 }]
    let calls2 := calls ++ [createInvCall onum]
    match w.getInvR with
    | .error d =>
        { result := .error ("Failed to get invoice: " ++ d), steps := steps2,
          cid := some cid, oid := some oid, iid := some iid,
          calls := calls2 ++ [getInvCall], updates := ups2 }
    | .ok _ =>
      match w.publishR with
      | .error d =>
          { result := .error ("Invoice publish failed: " ++ d), steps := steps2,
            cid := some cid, oid := some oid, iid := some iid,
            calls := calls2 ++ [getInvCall, publishCall onum], updates := ups2 }
      | .ok _ =>
          { result := .ok (cid, oid, iid, inum),
            steps := steps2 ++ ["invoice_published"],
            cid := some cid, oid := some oid, iid := some iid,
            calls := calls2 ++ [getInvCall, publishCall onum], updates := ups2 }

/-- Saga from step 3 on (create order), entered with the customer id
resolved and `steps` holding the customer-resolution step names. -/
def afterCustomer (w : World) (onum pid : String) (steps : List String)
    (cid : String) (calls : List SquareCall) : SagaRes :=
  let ups1 :=
    [LedgerOp.update pid { square_customer_id := some cid, steps := some steps }]
  match w.createOrdR with
  | .error d =>
      { result := .error ("Order creation failed: " ++ d), steps := steps,
        cid := some cid, oid := none, iid := none,
        calls := calls ++ [createOrdCall onum], updates := ups1 }
  | .ok oid =>
    let steps2 := steps ++ ["order_created"]
    let ups2 := ups1 ++
      [LedgerOp.update pid { square_order_id := some oid, steps := some steps2 }]
    afterOrder w onum pid steps2 cid oid (calls ++ [createOrdCall onum]) ups2

/-- The whole saga, starting from `stepsCompleted = []` with the customer
search (the handler always restarts from step 1, never resuming from the
stored `steps_completed`). -/
def runSaga (w : World) (onum pid : String) : SagaRes :=
  match w.searchR with
  | .error d =>
      { result := .error ("Customer search failed: " ++ d), steps := [],
        cid := none, oid := none, iid := none,
        calls := [searchCall], updates := [] }
  | .ok (some c) =>
      afterCustomer w onum pid ["customer_search", "customer_found"] c [searchCall]
  | .ok none =>
    match w.createCustR with
    | .error d =>
        { result := .error ("Customer creation failed: " ++ d),
          steps := ["customer_search"], cid := none, oid := none, iid := none,
          calls := [searchCall, createCustCall onum], updates := [] }
    | .ok c =>
        afterCustomer w onum pid ["customer_search", "customer_created"] c
          [searchCall, createCustCall onum]

/-- The catch-block error classification (source lines 807 to 816): by the
furthest step not yet present in `stepsCompleted`. -/
def classifyFail (steps : List String) : String :=
  if steps = [] then "SQUARE_CUSTOMER_ERROR"
  else if steps.contains "order_created" = false then "SQUARE_ORDER_ERROR"
  else if steps.contains "invoice_created" = false then "SQUARE_INVOICE_ERROR"
  else if steps.contains "invoice_published" = false then "SQUARE_PUBLISH_ERROR"
  else "SQUARE_API_ERROR"

/-! ## Handler assembly -/

/-- Translation of `errorResponse`: JSON error with the given code, HTTP
status and
optional `retry_after`. -/
def errResp (code : String) (status : Nat) (retry : Option Nat) : HttpResp :=
  { status := status, success := false, errorCode := some code,
    retryAfter := retry }

/-- An exit that performs no effect at all (CORS preflight, 405, missing
environment). -/
def mk0 (o : Outcome) : HResult :=
  { outcome := o, squareCalls := [], ledgerOps := [], auditAttempts := [],
    auditPersisted := [] }

/-- An exit that attempts exactly one audit write before responding.  The
source routes the write through `logAudit`, whose try/catch swallows a
failed insert, so the outcome is computed independently of `w.auditOk`. -/
def mkAudit (w : World) (o : Outcome) (e : AuditEntry) : HResult :=
  { outcome := o, squareCalls := [], ledgerOps := [], auditAttempts := [e],
    auditPersisted := if w.auditOk then [e] else [] }

/-- The shared auth-missing exit (no header, or header without the
`Bearer ` shape). -/
def authMissingExit (w : World) : HResult :=
  mkAudit w (.resp (errResp "AUTH_MISSING" 401 none))
    { result := "AUTH_MISSING", error_code := some "AUTH_MISSING",
      error_message := some "No authorization header provided",
      steps_completed := none }

/-- The token-verification-failure exit (source lines 435 to 445): the audit
entry records result AUTH_MISSING while the code is classified from the
provider message. -/
def authFailExit (w : World) (em : Option String) : HResult :=
  mkAudit w (.resp (errResp (authFailCode em) 401 none))
    { result := "AUTH_MISSING", error_code := some (authFailCode em),
      error_message := some (em.getD "Invalid authentication token"),
      steps_completed := none }

/-- Section 9 of the handler: run the saga for record `pid`, then either
mark the record completed and respond 200, or classify the failure, mark the
record failed with the error message, and respond 500.  `pre` holds the
ledger write of section 8 (the reuse update or the fresh insert). -/
def sagaPhase (w : World) (onum pid : String) (pre : List LedgerOp) : HResult :=
  let s := runSaga w onum pid
  match s.result with
  | .ok _ =>
    let e : AuditEntry :=
      { result := "SUCCESS", error_code := none, error_message := none,
        steps_completed := some s.steps }
    { outcome := .resp { status := 200, success := true, errorCode := none,
                         retryAfter := none },
      squareCalls := s.calls,
      ledgerOps := pre ++ s.updates ++
        [LedgerOp.update pid { status := some .completed, steps := some s.steps,
                               completed_at := true }],
      auditAttempts := [e],
      auditPersisted := if w.auditOk then [e] else [] }
  | .error msg =>
    let code := classifyFail s.steps
    let e : AuditEntry :=
      { result := "FAILURE", error_code := some code,
        error_message := some msg, steps_completed := some s.steps }
    { outcome := .resp (errResp code 500 none),
      squareCalls := s.calls,
      ledgerOps := pre ++ s.updates ++
        [LedgerOp.update pid { status := some .failed, steps := some s.steps,
                               error_message := some msg,
                               square_customer_id := s.cid,
                               square_order_id := s.oid,
                               square_invoice_id := s.iid }],
      auditAttempts := [e],
      auditPersisted := if w.auditOk then [e] else [] }

/-- Sections 7 and 8 of the handler: duplicate check against the existing
ledger record, then record reuse (status reset to processing) or fresh
insert, then the saga. -/
def recordPhase (w : World) (onum : String) : HResult :=
  match w.existingOrder with
  | some r =>
    if r.status = .completed then
      mkAudit w (.resp (errResp "DUPLICATE_ORDER" 409 none))
        { result := "DUPLICATE_BLOCKED", error_code := some "DUPLICATE_ORDER",
          error_message := some "Order already processed",
          steps_completed := none }
    else
      sagaPhase w onum r.id
        [LedgerOp.update r.id { status := some .processing }]
  | none =>
    match w.insertResult with
    | .ok pid =>
      sagaPhase w onum pid
        [LedgerOp.insert onum .processing ("cultivera-" ++ onum)]
    | .uniqueViolation =>
      mkAudit w (.resp (errResp "DUPLICATE_ORDER" 409 none))
        { result := "DUPLICATE_BLOCKED", error_code := some "DUPLICATE_ORDER",
          error_message := some "Order being processed by another request",
          steps_completed := none }
    | .otherError m =>
      { outcome := .thrown m, squareCalls := [], ledgerOps := [],
        auditAttempts := [], auditPersisted := [] }

/-- Section 6 of the handler: the per-user and global rate limits, in that
order. -/
def rateGate (w : World) (uid onum : String) : HResult :=
  if get_user_rate_limit_count w.auditTable w.dbNow uid
      ≥ USER_RATE_LIMIT then
    mkAudit w (.resp (errResp "RATE_LIMITED_USER" 429 (some 3600)))
      { result := "RATE_LIMITED", error_code := some "RATE_LIMITED_USER",
        error_message := some "User rate limit exceeded",
        steps_completed := none }
  else if get_global_rate_limit_count w.auditTable w.dbNow
      ≥ GLOBAL_RATE_LIMIT then
    mkAudit w (.resp (errResp "RATE_LIMITED_GLOBAL" 429 (some 300)))
      { result := "RATE_LIMITED", error_code := some "RATE_LIMITED_GLOBAL",
        error_message := some "Global rate limit exceeded",
        steps_completed := none }
  else recordPhase w onum

/-- Section 5 of the handler: replay protection on the parsed request
timestamp (unparseable, too old or too far in the future all reject). -/
def replayGate (w : World) (uid onum : String) : HResult :=
  match w.parsedTimestamp with
  | none =>
    mkAudit w (.resp (errResp "REPLAY_REJECTED" 400 none))
      { result := "REPLAY_REJECTED", error_code := some "REPLAY_REJECTED",
        error_message := some "Request timestamp outside acceptable window",
        steps_completed := none }
  | some tms =>
    if (w.nowMs - tms) / 1000 > REPLAY_WINDOW_SECONDS
        ∨ (w.nowMs - tms) / 1000 < -30 then
      mkAudit w (.resp (errResp "REPLAY_REJECTED" 400 none))
        { result := "REPLAY_REJECTED", error_code := some "REPLAY_REJECTED",
          error_message := some "Request timestamp outside acceptable window",
          steps_completed := none }
    else rateGate w uid onum

/-- Sections 3 and 4 of the handler: JSON parse result and the four
validation rules, in source order. -/
def validateBody (w : World) (uid : String) : Option RequestBody → HResult
  | none =>
    mkAudit w (.resp (errResp "VALIDATION_MISSING_FIELD" 400 none))
      { result := "VALIDATION_FAILED",
        error_code := some "VALIDATION_MISSING_FIELD",
        error_message := some "Invalid JSON body", steps_completed := none }
  | some b =>
    if b.order_number = "" ∨ b.customer_name = "" ∨ b.customer_email = ""
        ∨ b.amount_cents = none ∨ b.request_timestamp = "" then
      mkAudit w (.resp (errResp "VALIDATION_MISSING_FIELD" 400 none))
        { result := "VALIDATION_FAILED",
          error_code := some "VALIDATION_MISSING_FIELD",
          error_message := some "Missing required fields",
          steps_completed := none }
    else
      match b.amount_cents with
      | none =>
        mkAudit w (.resp (errResp "VALIDATION_MISSING_FIELD" 400 none))
          { result := "VALIDATION_FAILED",
            error_code := some "VALIDATION_MISSING_FIELD",
            error_message := some "Missing required fields",
            steps_completed := none }
      | some a =>
        if isValidOrderNumber b.order_number = false then
          mkAudit w (.resp (errResp "VALIDATION_INVALID_ORDER" 400 none))
            { result := "VALIDATION_FAILED",
              error_code := some "VALIDATION_INVALID_ORDER",
              error_message := some "Invalid order number format",
              steps_completed := none }
        else if isValidEmail b.customer_email = false then
          mkAudit w (.resp (errResp "VALIDATION_INVALID_EMAIL" 400 none))
            { result := "VALIDATION_FAILED",
              error_code := some "VALIDATION_INVALID_EMAIL",
              error_message := some "Invalid email format",
              steps_completed := none }
        else if ¬ a.den = 1 ∨ a ≤ 0 ∨ a > MAX_AMOUNT_CENTS then
          mkAudit w (.resp (errResp "VALIDATION_INVALID_AMOUNT" 400 none))
            { result := "VALIDATION_FAILED",
              error_code := some "VALIDATION_INVALID_AMOUNT",
              error_message := some "Amount must be a positive integer not exceeding the maximum",
              steps_completed := none }
        else replayGate w uid b.order_number

/-- Section 2 of the handler: the invoicer-role authorization check. -/
def authzGate (w : World) (uid : String) (body? : Option RequestBody) :
    HResult :=
  if w.isAuthorized = false then
    mkAudit w (.resp (errResp "UNAUTHORIZED" 403 none))
      { result := "UNAUTHORIZED", error_code := some "UNAUTHORIZED",
        error_message := some "User is not authorized to create invoices",
        steps_completed := none }
  else validateBody w uid body?

/-- Section 1 of the handler: the bearer-credential auth gate. -/
def authGate (req : Req) (w : World) : HResult :=
  match req.authHeader with
  | none => authMissingExit w
  | some ah =>
    if startsWithBearer ah = false then authMissingExit w
    else
      match w.auth.errorMsg, w.auth.user with
      | some m, _ => authFailExit w (some m)
      | none, none => authFailExit w none
      | none, some uid => authzGate w uid req.body

/-- The full request handler (`Deno.serve` callback), translated gate by
gate from the source: CORS preflight, method check, environment check, then
the staged gates above (auth, authorization, validation, replay, rate
limits, ledger, saga). -/
def handle (req : Req) (env : Env) (w : World) : HResult :=
  if req.method = "OPTIONS" then
    mk0 (.resp { status := 200, success := false, errorCode := none,
                 retryAfter := none })
  else if req.method ≠ "POST" then
    mk0 (.resp (errResp "INTERNAL_ERROR" 405 none))
  else
    match env.supabaseUrl, env.serviceKey, env.squareToken, env.locationId with
    | some _, some _, some _, some _ => authGate req w
    | _, _, _, _ => mk0 (.resp (errResp "INTERNAL_ERROR" 500 none))

/-! ## Concrete fixtures used by witnesses and counterexamples -/

/-- A well-formed request body. -/
def tBody : RequestBody :=
  { order_number := "7600", customer_name := "Jane Doe",
    customer_email := "jane@example.org", amount_cents := some 3250,
    request_timestamp := "2026-01-01T00:00:00Z" }

/-- A POST request with a bearer token and the well-formed body. -/
def tReq : Req :=
  { method := "POST", authHeader := some "Bearer tok", body := some tBody }

/-- A fully configured environment. -/
def tEnv : Env :=
  { supabaseUrl := some "url", serviceKey := some "key",
    squareToken := some "sq", locationId := some "loc" }

/-- A world in which every collaborator cooperates: authentication and
authorization succeed, no rate-limit rows, fresh order, every Square call
succeeds. -/
def tWorld : World :=
  { auth := { errorMsg := none, user := some "uid-1" },
    isAuthorized := true, auditTable := [], dbNow := 0, nowMs := 0,
    parsedTimestamp := some 0, existingOrder := none,
    insertResult := .ok "pid-1",
    searchR := .ok (some "CUST-1"), createCustR := .ok "CUST-1",
    createOrdR := .ok "ORD-1", createInvR := .ok ("INV-1", "0001"),
    getInvR := .ok 1, publishR := .ok (), auditOk := true }

/-- A ledger record left behind by a previous failed attempt, with three
steps already recorded. -/
def tRecFailed : OrderRecord :=
  { id := "pid-0", status := .failed,
    steps_completed := ["customer_search", "customer_found", "order_created"] }

/-- A retry world: the failed record above exists, and the customer search
fails immediately on the new attempt. -/
def tWorldRetryFail : World :=
  { tWorld with searchR := .error "boom", existingOrder := some tRecFailed }


/-! ## Statement helpers -/

/-- The steps_completed value written by a ledger operation, when it writes
one (a fresh insert stores the DDL column default, the empty list). -/
def stepsOf : LedgerOp → Option (List String)
  | .insert _ _ _ => some []
  | .update _ u => u.steps

/-- The idempotency key the source attaches to each Square endpoint for a
given order number (`cust-`, `ord-`, `inv-`, `pub-`; search and the version
fetch carry none). -/
def expectedKey (e : SqEndpoint) (onum : String) : Option String :=
  match e with
  | .searchCustomers => none
  | .createCustomer => some ("cust-" ++ onum)
  | .createOrder => some ("ord-" ++ onum)
  | .createInvoice => some ("inv-" ++ onum)
  | .getInvoice => none
  | .publishInvoice => some ("pub-" ++ onum)

/-- Statement helper summarizing section 8 of the handler: the ledger row id
the saga would run against (the reused row, or the freshly inserted one);
`none` when the request is blocked as a duplicate or the insert fails. -/
def recordTarget (w : World) : Option String :=
  match w.existingOrder with
  | some r => if r.status = .completed then none else some r.id
  | none =>
    match w.insertResult with
    | .ok i => some i
    | _ => none

/-! ## Theorems -/

/-- Claim C10: when an Authorization header of the `Bearer ` shape is
present but token verification fails, the endpoint responds 401 with code
AUTH_EXPIRED when the provider error message contains `expired` and
AUTH_INVALID otherwise (also when the failure carries no message), while the
audit entry written for the failure always records result AUTH_MISSING; the
distinguishing code appears only in its error_code field. -/
theorem spec_C10_auth_failure_classification (req : Req) (env : Env)
    (w : World) (ah u1 u2 u3 u4 : String)
    (hm : req.method = "POST")
    (he1 : env.supabaseUrl = some u1) (he2 : env.serviceKey = some u2)
    (he3 : env.squareToken = some u3) (he4 : env.locationId = some u4)
    (hah : req.authHeader = some ah)
    (hbear : startsWithBearer ah = true) :
    (∀ m, w.auth.errorMsg = some m →
      (handle req env w).outcome = .resp (errResp
        (if containsExpired m then "AUTH_EXPIRED" else "AUTH_INVALID") 401 none)
      ∧ (handle req env w).auditAttempts =
        [{ result := "AUTH_MISSING",
           error_code := some
             (if containsExpired m then "AUTH_EXPIRED" else "AUTH_INVALID"),
           error_message := some m, steps_completed := none }])
    ∧ (w.auth.errorMsg = none → w.auth.user = none →
      (handle req env w).outcome = .resp (errResp "AUTH_INVALID" 401 none)
      ∧ (handle req env w).auditAttempts =
        [{ result := "AUTH_MISSING", error_code := some "AUTH_INVALID",
           error_message := some "Invalid authentication token",
           steps_completed := none }]) := by
  constructor
  · intro m hfail
    simp [handle, authGate, hm, he1, he2, he3, he4, hah, hbear, hfail,
      authFailExit, authFailCode, mkAudit, errResp]
  · intro hnone huser
    simp [handle, authGate, hm, he1, he2, he3, he4, hah, hbear, hnone,
      huser, authFailExit, authFailCode, mkAudit, errResp]


/-- Concrete world in which token verification fails with an expired-token
message. -/
def tWorldAuthFail : World :=
  { tWorld with auth := { errorMsg := some "jwt expired", user := none } }

/-- Witness for C10 at a concrete expired-token failure. -/
theorem spec_C10_witness :
    (handle tReq tEnv tWorldAuthFail).outcome
      = .resp (errResp "AUTH_EXPIRED" 401 none)
    ∧ (handle tReq tEnv tWorldAuthFail).auditAttempts =
      [{ result := "AUTH_MISSING", error_code := some "AUTH_EXPIRED",
         error_message := some "jwt expired", steps_completed := none }] := by
  have h := (spec_C10_auth_failure_classification tReq tEnv tWorldAuthFail
    "Bearer tok" "url" "key" "sq" "loc" rfl rfl rfl rfl rfl rfl
    (by decide)).1 "jwt expired" rfl
  simpa [show containsExpired "jwt expired" = true from by decide] using h

/-- Claim C1: once all earlier gates pass, a request whose order number has
a completed ledger record, and a request whose fresh insert loses the race
with a uniqueness conflict, both get HTTP 409 with code DUPLICATE_ORDER and
no Square API call is performed. -/
theorem spec_C1_duplicate_blocked (req : Req) (env : Env) (w : World)
    (b : RequestBody) (a : ℚ) (tms : ℚ) (ah uid u1 u2 u3 u4 : String)
    (hm : req.method = "POST")
    (he1 : env.supabaseUrl = some u1) (he2 : env.serviceKey = some u2)
    (he3 : env.squareToken = some u3) (he4 : env.locationId = some u4)
    (hah : req.authHeader = some ah) (hbear : startsWithBearer ah = true)
    (hae : w.auth.errorMsg = none) (hau : w.auth.user = some uid)
    (hz : w.isAuthorized = true)
    (hb : req.body = some b)
    (hf1 : b.order_number ≠ "") (hf2 : b.customer_name ≠ "")
    (hf3 : b.customer_email ≠ "") (hf4 : b.amount_cents = some a)
    (hf5 : b.request_timestamp ≠ "")
    (hord : isValidOrderNumber b.order_number = true)
    (hem : isValidEmail b.customer_email = true)
    (hden : a.den = 1) (hpos : 0 < a) (hmax : a ≤ MAX_AMOUNT_CENTS)
    (hts : w.parsedTimestamp = some tms)
    (hage1 : ¬ ((w.nowMs - tms) / 1000 > REPLAY_WINDOW_SECONDS))
    (hage2 : ¬ ((w.nowMs - tms) / 1000 < -30))
    (hru : ¬ (get_user_rate_limit_count w.auditTable w.dbNow uid
              ≥ USER_RATE_LIMIT))
    (hrg : ¬ (get_global_rate_limit_count w.auditTable w.dbNow
              ≥ GLOBAL_RATE_LIMIT)) :
    (∀ r, w.existingOrder = some r → r.status = .completed →
      (handle req env w).outcome = .resp (errResp "DUPLICATE_ORDER" 409 none)
      ∧ (handle req env w).squareCalls = [])
    ∧ (w.existingOrder = none → w.insertResult = .uniqueViolation →
      (handle req env w).outcome = .resp (errResp "DUPLICATE_ORDER" 409 none)
      ∧ (handle req env w).squareCalls = []) := by
  constructor
  · intro r hr hst
    simp [handle, authGate, authzGate, validateBody, replayGate, rateGate,
      recordPhase, hm, he1, he2, he3, he4, hah, hbear, hae, hau, hz, hb, hf1,
      hf2, hf3, hf4, hf5, hord, hem, hden, hpos.not_le, hmax.not_lt, hts,
      hage1, hage2, hru, hrg, hr, hst, mkAudit, errResp]
  · intro hr hins
    simp [handle, authGate, authzGate, validateBody, replayGate, rateGate,
      recordPhase, hm, he1, he2, he3, he4, hah, hbear, hae, hau, hz, hb, hf1,
      hf2, hf3, hf4, hf5, hord, hem, hden, hpos.not_le, hmax.not_lt, hts,
      hage1, hage2, hru, hrg, hr, hins, mkAudit, errResp]


/-- A completed ledger record for the fixture order. -/
def tRecCompleted : OrderRecord :=
  { id := "pid-0", status := .completed,
    steps_completed := ["customer_search", "customer_found", "order_created",
      "invoice_created", "invoice_published"] }

/-- A world in which the fixture order already has a completed record. -/
def tWorldDup : World := { tWorld with existingOrder := some tRecCompleted }

/-- Witness for C1 at the concrete completed-record world. -/
theorem spec_C1_witness :
    (handle tReq tEnv tWorldDup).outcome
      = .resp (errResp "DUPLICATE_ORDER" 409 none)
    ∧ (handle tReq tEnv tWorldDup).squareCalls = [] :=
  (spec_C1_duplicate_blocked tReq tEnv tWorldDup tBody 3250 0 "Bearer tok"
    "uid-1" "url" "key" "sq" "loc" rfl rfl rfl rfl rfl rfl (by decide) rfl
    rfl rfl rfl (by decide) (by decide) (by decide) rfl (by decide)
    (by decide) (by decide) (by decide) (by decide) (by decide) rfl
    (by simp [tWorldDup, tWorld, REPLAY_WINDOW_SECONDS])
    (by simp [tWorldDup, tWorld])
    (by decide) (by decide)).1 tRecCompleted rfl rfl

/-- Taking `getLast?` of a cons of a concat yields the appended singleton. -/
theorem getLast?_cons_concat {α : Type} (a b : α) (l : List α) :
    (a :: (l ++ [b])).getLast? = some b := by
  rw [← List.cons_append, List.getLast?_concat]

/-- Claim C2: when the saga fails, the handler responds 500 with the code
picked by the furthest step not yet in steps_completed (none completed:
SQUARE_CUSTOMER_ERROR; order_created absent: SQUARE_ORDER_ERROR;
invoice_created absent: SQUARE_INVOICE_ERROR; invoice_published absent:
SQUARE_PUBLISH_ERROR), and its final ledger write sets the record to failed
with error_message carrying the underlying error text. -/
theorem spec_C2_saga_failure_classification (req : Req) (env : Env)
    (w : World) (b : RequestBody) (a : ℚ) (tms : ℚ)
    (ah uid u1 u2 u3 u4 pid msg : String)
    (hm : req.method = "POST")
    (he1 : env.supabaseUrl = some u1) (he2 : env.serviceKey = some u2)
    (he3 : env.squareToken = some u3) (he4 : env.locationId = some u4)
    (hah : req.authHeader = some ah) (hbear : startsWithBearer ah = true)
    (hae : w.auth.errorMsg = none) (hau : w.auth.user = some uid)
    (hz : w.isAuthorized = true)
    (hb : req.body = some b)
    (hf1 : b.order_number ≠ "") (hf2 : b.customer_name ≠ "")
    (hf3 : b.customer_email ≠ "") (hf4 : b.amount_cents = some a)
    (hf5 : b.request_timestamp ≠ "")
    (hord : isValidOrderNumber b.order_number = true)
    (hem : isValidEmail b.customer_email = true)
    (hden : a.den = 1) (hpos : 0 < a) (hmax : a ≤ MAX_AMOUNT_CENTS)
    (hts : w.parsedTimestamp = some tms)
    (hage1 : ¬ ((w.nowMs - tms) / 1000 > REPLAY_WINDOW_SECONDS))
    (hage2 : ¬ ((w.nowMs - tms) / 1000 < -30))
    (hru : ¬ (get_user_rate_limit_count w.auditTable w.dbNow uid
              ≥ USER_RATE_LIMIT))
    (hrg : ¬ (get_global_rate_limit_count w.auditTable w.dbNow
              ≥ GLOBAL_RATE_LIMIT))
    (hrec : recordTarget w = some pid)
    (hfail : (runSaga w b.order_number pid).result = .error msg) :
    (handle req env w).outcome = .resp (errResp
      (if (runSaga w b.order_number pid).steps = []
         then "SQUARE_CUSTOMER_ERROR"
       else if (runSaga w b.order_number pid).steps.contains "order_created"
           = false then "SQUARE_ORDER_ERROR"
       else if (runSaga w b.order_number pid).steps.contains "invoice_created"
           = false then "SQUARE_INVOICE_ERROR"
       else if (runSaga w b.order_number pid).steps.contains "invoice_published"
           = false then "SQUARE_PUBLISH_ERROR"
       else "SQUARE_API_ERROR") 500 none)
    ∧ (handle req env w).ledgerOps.getLast? = some (.update pid
        { status := some .failed,
          steps := some (runSaga w b.order_number pid).steps,
          error_message := some msg,
          square_customer_id := (runSaga w b.order_number pid).cid,
          square_order_id := (runSaga w b.order_number pid).oid,
          square_invoice_id := (runSaga w b.order_number pid).iid }) := by
  cases hE : w.existingOrder with
  | some r =>
    rw [recordTarget, hE] at hrec
    by_cases hst : r.status = .completed
    · simp [hst] at hrec
    · simp only [if_neg hst, Option.some.injEq] at hrec
      subst hrec
      simp [handle, authGate, authzGate, validateBody, replayGate, rateGate,
        recordPhase, hm, he1, he2, he3, he4, hah, hbear, hae, hau, hz, hb,
        hf1, hf2, hf3, hf4, hf5, hord, hem, hden, hpos.not_le, hmax.not_lt,
        hts, hage1, hage2, hru, hrg, hE, hst, sagaPhase, hfail, classifyFail,
        errResp, getLast?_cons_concat]
  | none =>
    rw [recordTarget, hE] at hrec
    cases hI : w.insertResult with
    | ok i =>
      rw [hI, Option.some.injEq] at hrec
      subst hrec
      simp [handle, authGate, authzGate, validateBody, replayGate, rateGate,
        recordPhase, hm, he1, he2, he3, he4, hah, hbear, hae, hau, hz, hb,
        hf1, hf2, hf3, hf4, hf5, hord, hem, hden, hpos.not_le, hmax.not_lt,
        hts, hage1, hage2, hru, hrg, hE, hI, sagaPhase, hfail, classifyFail,
        errResp, getLast?_cons_concat]
    | uniqueViolation => rw [hI] at hrec; exact absurd hrec (by simp)
    | otherError m => rw [hI] at hrec; exact absurd hrec (by simp)


/-- Changing only the audit-write success flag does not change the saga
computation (it never reads the flag). -/
theorem runSaga_set_auditOk (w : World) (o : Bool) (onum pid : String) :
    runSaga { w with auditOk := o } onum pid = runSaga w onum pid := rfl

/-- Changing only the audit-write success flag does not change the outcome
of the saga phase (only which audit entries persist). -/
theorem sagaPhase_outcome_set_auditOk (w : World) (o : Bool)
    (onum pid : String) (pre : List LedgerOp) :
    (sagaPhase { w with auditOk := o } onum pid pre).outcome
      = (sagaPhase w onum pid pre).outcome := by
  simp only [sagaPhase, runSaga_set_auditOk]
  split <;> rfl

/-- A world in which order creation fails on the Square side. -/
def tWorldOrdFail : World := { tWorld with createOrdR := .error "order boom" }

/-- Witness for C2 at a concrete order-creation failure: classification
picks SQUARE_ORDER_ERROR and the final ledger write marks the record
failed. -/
theorem spec_C2_witness :
    (handle tReq tEnv tWorldOrdFail).outcome
      = .resp (errResp "SQUARE_ORDER_ERROR" 500 none)
    ∧ (handle tReq tEnv tWorldOrdFail).ledgerOps.getLast?
      = some (.update "pid-1"
        { status := some .failed,
          steps := some ["customer_search", "customer_found"],
          error_message := some "Order creation failed: order boom",
          square_customer_id := some "CUST-1" }) := by
  have h := spec_C2_saga_failure_classification tReq tEnv tWorldOrdFail tBody
    3250 0 "Bearer tok" "uid-1" "url" "key" "sq" "loc" "pid-1"
    "Order creation failed: order boom" rfl rfl rfl rfl rfl rfl (by decide)
    rfl rfl rfl rfl (by decide) (by decide) (by decide) rfl (by decide)
    (by decide) (by decide) (by decide) (by decide) (by decide) rfl
    (by simp [tWorldOrdFail, tWorld, REPLAY_WINDOW_SECONDS])
    (by simp [tWorldOrdFail, tWorld]) (by decide) (by decide) rfl (by decide)
  simpa [runSaga, afterCustomer, tWorldOrdFail, tWorld, tBody, searchCall,
    createOrdCall] using h

/-- A GET request, used to exhibit a terminating path with no audit write. -/
def tReqGet : Req := { tReq with method := "GET" }

/-- Counterexample to C3 as stated: the non-POST path terminates the request
with a 405 response and writes no audit entry at all (the OPTIONS preflight
and the missing-environment 500 path behave the same way). -/
theorem spec_C3_counterexample :
    (handle tReqGet tEnv tWorld).outcome
      = .resp (errResp "INTERNAL_ERROR" 405 none)
    ∧ (handle tReqGet tEnv tWorld).auditAttempts = [] := by
  exact ⟨rfl, rfl⟩

/-- Claim C3 (amended): once the method and environment checks have passed
and the ledger insert does not fail with a non-uniqueness error (whose
exception escapes with no response), every terminating path attempts exactly
one audit write; and the success or failure of that audit write (swallowed
by the logAudit try/catch) never changes the outcome. -/
theorem spec_C3_amended_single_audit (req : Req) (env : Env) (w : World)
    (u1 u2 u3 u4 : String)
    (hm : req.method = "POST")
    (he1 : env.supabaseUrl = some u1) (he2 : env.serviceKey = some u2)
    (he3 : env.squareToken = some u3) (he4 : env.locationId = some u4)
    (hins : ∀ m, w.insertResult ≠ .otherError m) :
    (handle req env w).auditAttempts.length = 1
    ∧ ∀ o1 o2 : Bool,
      (handle req env { w with auditOk := o1 }).outcome
        = (handle req env { w with auditOk := o2 }).outcome := by
  constructor
  · have h2 : ¬ ("POST" : String) = "OPTIONS" := by decide
    have h3 : ¬ ("POST" : String) ≠ "POST" := by simp
    simp only [handle, hm, he1, he2, he3, he4, if_neg h2, if_neg h3]
    repeat'
      first
      | split
      | (simp [authMissingExit, authFailExit, mkAudit, mk0]; done)
      | (simp_all; done)
      | (simp only [authGate])
      | (simp only [authzGate])
      | (simp only [validateBody])
      | (simp only [replayGate])
      | (simp only [rateGate])
      | (simp only [recordPhase])
      | (simp only [sagaPhase])
  · intro o1 o2
    simp only [handle, hm, he1, he2, he3, he4]
    repeat'
      first
      | split
      | (simp only [sagaPhase, runSaga_set_auditOk])
      | (simp only [authGate])
      | (simp only [authzGate])
      | (simp only [validateBody])
      | (simp only [replayGate])
      | (simp only [rateGate])
      | (simp only [recordPhase])
      | rfl

/-- Witness for C3 (amended) at the all-cooperating fixture world. -/
theorem spec_C3_witness :
    (handle tReq tEnv tWorld).auditAttempts.length = 1
    ∧ ∀ o1 o2 : Bool,
      (handle tReq tEnv { tWorld with auditOk := o1 }).outcome
        = (handle tReq tEnv { tWorld with auditOk := o2 }).outcome :=
  spec_C3_amended_single_audit tReq tEnv tWorld "url" "key" "sq" "loc"
    rfl rfl rfl rfl rfl (by intro m; simp [tWorld])


/-- Counterexample to C8 as stated: starting from a record whose previous
failed attempt stored three completed steps, a retry that fails during the
customer search writes steps_completed = [] to that same record — the write
is not an extension of the previously stored value. -/
theorem spec_C8_counterexample :
    ((handle tReq tEnv tWorldRetryFail).ledgerOps.filterMap stepsOf) = [[]]
    ∧ tRecFailed.steps_completed
      = ["customer_search", "customer_found", "order_created"]
    ∧ ¬ tRecFailed.steps_completed ⊆ ([] : List String) := by
  refine ⟨?_, rfl, by decide⟩
  have hb : startsWithBearer "Bearer tok" = true := by decide
  have ho : isValidOrderNumber "7600" = true := by decide
  have he : isValidEmail "jane@example.org" = true := by decide
  have ha1 : (3250 : ℚ).den = 1 := by decide
  have ha2 : ¬ ((3250 : ℚ) ≤ 0) := by decide
  have ha3 : ¬ ((3250 : ℚ) > MAX_AMOUNT_CENTS) := by decide
  simp [handle, authGate, authzGate, validateBody, replayGate, rateGate,
    recordPhase, sagaPhase, runSaga, tReq, tEnv, tWorldRetryFail, tWorld,
    tBody, tRecFailed, hb, ho, he, ha1, ha2, ha3, mkAudit,
    get_user_rate_limit_count, get_global_rate_limit_count,
    USER_RATE_LIMIT, GLOBAL_RATE_LIMIT, REPLAY_WINDOW_SECONDS, searchCall,
    stepsOf]
  norm_num [stepsOf]
  decide

/-- Claim C8 (amended): within a single request, the successive
steps_completed values the handler writes to the ledger form a chain under
list extension — each write extends the previous write of the same request.
Across retry attempts the stored value can shrink, as the counterexample
shows, because every attempt restarts from the empty step list. -/
theorem spec_C8_amended_steps_monotone_within_request (req : Req) (env : Env)
    (w : World) :
    List.Chain' (fun x y => x <+: y)
      ((handle req env w).ledgerOps.filterMap stepsOf) := by
  unfold handle
  repeat'
    first
    | split
    | (simp [authMissingExit, authFailExit, mkAudit, mk0, stepsOf]; done)
    | (simp only [authGate])
    | (simp only [authzGate])
    | (simp only [validateBody])
    | (simp only [replayGate])
    | (simp only [rateGate])
    | (simp only [recordPhase])
    | (simp only [sagaPhase])
    | (simp only [runSaga])
    | (simp only [afterCustomer])
    | (simp only [afterOrder])


/-- Every Square call of the saga carries exactly the idempotency key the
source derives for its endpoint from the order number. -/
theorem runSaga_calls_keys (w : World) (onum pid : String) :
    ∀ c ∈ (runSaga w onum pid).calls,
      c.idemKey = expectedKey c.endpoint onum := by
  unfold runSaga afterCustomer afterOrder
  repeat'
    first
    | split
    | (simp [searchCall, createCustCall, createOrdCall, createInvCall,
        getInvCall, publishCall, expectedKey]; done)

/-- The saga always begins with the customer search call. -/
theorem runSaga_calls_head (w : World) (onum pid : String) :
    (runSaga w onum pid).calls.head? = some searchCall := by
  unfold runSaga afterCustomer afterOrder
  repeat'
    first
    | split
    | (simp; done)

/-- The saga computation ignores the stored existing-order record. -/
theorem runSaga_set_existing (w : World) (e : Option OrderRecord)
    (onum pid : String) :
    runSaga { w with existingOrder := e } onum pid = runSaga w onum pid := rfl

/-- The saga phase ignores the stored existing-order record. -/
theorem sagaPhase_set_existing (w : World) (e : Option OrderRecord)
    (onum pid : String) (pre : List LedgerOp) :
    sagaPhase { w with existingOrder := e } onum pid pre
      = sagaPhase w onum pid pre := by
  simp only [sagaPhase, runSaga_set_existing]

/-- The saga reads only the six Square oracles: worlds agreeing on them run
the same saga. -/
theorem runSaga_congr (w₁ w₂ : World) (onum pid : String)
    (h1 : w₁.searchR = w₂.searchR) (h2 : w₁.createCustR = w₂.createCustR)
    (h3 : w₁.createOrdR = w₂.createOrdR) (h4 : w₁.createInvR = w₂.createInvR)
    (h5 : w₁.getInvR = w₂.getInvR) (h6 : w₁.publishR = w₂.publishR) :
    runSaga w₁ onum pid = runSaga w₂ onum pid := by
  unfold runSaga afterCustomer afterOrder
  rw [h1, h2, h3, h4, h5, h6]

/-- The saga phase reads only the six Square oracles and the audit flag. -/
theorem sagaPhase_congr (w₁ w₂ : World) (onum pid : String)
    (pre : List LedgerOp)
    (h1 : w₁.searchR = w₂.searchR) (h2 : w₁.createCustR = w₂.createCustR)
    (h3 : w₁.createOrdR = w₂.createOrdR) (h4 : w₁.createInvR = w₂.createInvR)
    (h5 : w₁.getInvR = w₂.getInvR) (h6 : w₁.publishR = w₂.publishR)
    (h7 : w₁.auditOk = w₂.auditOk) :
    sagaPhase w₁ onum pid pre = sagaPhase w₂ onum pid pre := by
  unfold sagaPhase
  rw [runSaga_congr w₁ w₂ onum pid h1 h2 h3 h4 h5 h6, h7]

/-- Claim C4: when the gates pass and the order number has an existing
record in a non-completed status, the record is reused: the first ledger
write resets its status to processing; the whole result is unchanged if the
stored steps_completed had been anything else (the saga restarts from the
beginning and never reads it); the first external call is the customer
search (step 1); and every external call carries exactly the idempotency key
derived for its endpoint from the order number. -/
theorem spec_C4_record_reuse_full_rerun (req : Req) (env : Env) (w : World)
    (b : RequestBody) (r : OrderRecord) (a : ℚ) (tms : ℚ)
    (ah uid u1 u2 u3 u4 : String)
    (hm : req.method = "POST")
    (he1 : env.supabaseUrl = some u1) (he2 : env.serviceKey = some u2)
    (he3 : env.squareToken = some u3) (he4 : env.locationId = some u4)
    (hah : req.authHeader = some ah) (hbear : startsWithBearer ah = true)
    (hae : w.auth.errorMsg = none) (hau : w.auth.user = some uid)
    (hz : w.isAuthorized = true)
    (hb : req.body = some b)
    (hf1 : b.order_number ≠ "") (hf2 : b.customer_name ≠ "")
    (hf3 : b.customer_email ≠ "") (hf4 : b.amount_cents = some a)
    (hf5 : b.request_timestamp ≠ "")
    (hord : isValidOrderNumber b.order_number = true)
    (hem : isValidEmail b.customer_email = true)
    (hden : a.den = 1) (hpos : 0 < a) (hmax : a ≤ MAX_AMOUNT_CENTS)
    (hts : w.parsedTimestamp = some tms)
    (hage1 : ¬ ((w.nowMs - tms) / 1000 > REPLAY_WINDOW_SECONDS))
    (hage2 : ¬ ((w.nowMs - tms) / 1000 < -30))
    (hru : ¬ (get_user_rate_limit_count w.auditTable w.dbNow uid
              ≥ USER_RATE_LIMIT))
    (hrg : ¬ (get_global_rate_limit_count w.auditTable w.dbNow
              ≥ GLOBAL_RATE_LIMIT))
    (hE : w.existingOrder = some r)
    (hst : r.status ≠ .completed) :
    (handle req env w).ledgerOps.head?
      = some (.update r.id { status := some .processing })
    ∧ (∀ s' : List String,
        handle req env
          { w with existingOrder := some { r with steps_completed := s' } }
          = handle req env w)
    ∧ (handle req env w).squareCalls.head? = some searchCall
    ∧ ∀ c ∈ (handle req env w).squareCalls,
        c.idemKey = expectedKey c.endpoint b.order_number := by
  have hred : handle req env w
      = sagaPhase w b.order_number r.id
          [LedgerOp.update r.id { status := some .processing }] := by
    simp [handle, authGate, authzGate, validateBody, replayGate, rateGate,
      recordPhase, hm, he1, he2, he3, he4, hah, hbear, hae, hau, hz, hb,
      hf1, hf2, hf3, hf4, hf5, hord, hem, hden, hpos.not_le, hmax.not_lt,
      hts, hage1, hage2, hru, hrg, hE, hst]
  refine ⟨?_, ?_, ?_, ?_⟩
  · rw [hred]
    simp only [sagaPhase]
    split <;> simp
  · intro s'
    have hred2 := sagaPhase_set_existing w
      (some { r with steps_completed := s' }) b.order_number r.id
      [LedgerOp.update r.id { status := some .processing }]
    have hred3 : handle req env
        { w with existingOrder := some { r with steps_completed := s' } }
        = sagaPhase w b.order_number r.id
            [LedgerOp.update r.id { status := some .processing }] := by
      simp [handle, authGate, authzGate, validateBody, replayGate, rateGate,
        recordPhase, hm, he1, he2, he3, he4, hah, hbear, hae, hau, hz, hb,
        hf1, hf2, hf3, hf4, hf5, hord, hem, hden, hpos.not_le, hmax.not_lt,
        hts, hage1, hage2, hru, hrg, hst]
      exact sagaPhase_congr _ _ _ _ _ rfl rfl rfl rfl rfl rfl rfl
    rw [hred3, hred]
  · rw [hred]
    simp only [sagaPhase]
    have hc := runSaga_calls_head w b.order_number r.id
    split <;> simpa using hc
  · rw [hred]
    simp only [sagaPhase]
    have hc := runSaga_calls_keys w b.order_number r.id
    split <;> simpa using hc


/-- A retry world: the previously failed record exists and every
collaborator cooperates on the new attempt. -/
def tWorldRetry : World := { tWorld with existingOrder := some tRecFailed }

/-- Witness for C4 at a concrete retry of a failed order. -/
theorem spec_C4_witness :
    (handle tReq tEnv tWorldRetry).ledgerOps.head?
      = some (.update "pid-0" { status := some .processing })
    ∧ (∀ s' : List String,
        handle tReq tEnv { tWorldRetry with existingOrder := some { tRecFailed with steps_completed := s' } }
          = handle tReq tEnv tWorldRetry)
    ∧ (handle tReq tEnv tWorldRetry).squareCalls.head? = some searchCall
    ∧ ∀ c ∈ (handle tReq tEnv tWorldRetry).squareCalls,
        c.idemKey = expectedKey c.endpoint "7600" :=
  spec_C4_record_reuse_full_rerun tReq tEnv tWorldRetry tBody tRecFailed
    3250 0 "Bearer tok" "uid-1" "url" "key" "sq" "loc"
    rfl rfl rfl rfl rfl rfl (by decide) rfl rfl rfl rfl (by decide)
    (by decide) (by decide) rfl (by decide) (by decide) (by decide)
    (by decide) (by decide) (by decide) rfl
    (by simp [tWorldRetry, tWorld, REPLAY_WINDOW_SECONDS])
    (by simp [tWorldRetry, tWorld]) (by decide) (by decide) rfl (by decide)

/-- Claim C7: after the earlier gates pass, a per-caller trailing-hour count
(of audit entries with result SUCCESS or FAILURE) at or above the threshold
10 rejects with RATE_LIMITED_USER, HTTP 429, retry_after 3600 seconds —
evaluated first, so it wins even if the global limit is also exceeded;
otherwise a global trailing-hour count at or above 50 rejects with
RATE_LIMITED_GLOBAL, HTTP 429, retry_after 300 seconds. -/
theorem spec_C7_rate_limit_order (req : Req) (env : Env) (w : World)
    (b : RequestBody) (a : ℚ) (tms : ℚ) (ah uid u1 u2 u3 u4 : String)
    (hm : req.method = "POST")
    (he1 : env.supabaseUrl = some u1) (he2 : env.serviceKey = some u2)
    (he3 : env.squareToken = some u3) (he4 : env.locationId = some u4)
    (hah : req.authHeader = some ah) (hbear : startsWithBearer ah = true)
    (hae : w.auth.errorMsg = none) (hau : w.auth.user = some uid)
    (hz : w.isAuthorized = true)
    (hb : req.body = some b)
    (hf1 : b.order_number ≠ "") (hf2 : b.customer_name ≠ "")
    (hf3 : b.customer_email ≠ "") (hf4 : b.amount_cents = some a)
    (hf5 : b.request_timestamp ≠ "")
    (hord : isValidOrderNumber b.order_number = true)
    (hem : isValidEmail b.customer_email = true)
    (hden : a.den = 1) (hpos : 0 < a) (hmax : a ≤ MAX_AMOUNT_CENTS)
    (hts : w.parsedTimestamp = some tms)
    (hage1 : ¬ ((w.nowMs - tms) / 1000 > REPLAY_WINDOW_SECONDS))
    (hage2 : ¬ ((w.nowMs - tms) / 1000 < -30)) :
    (get_user_rate_limit_count w.auditTable w.dbNow uid ≥ USER_RATE_LIMIT →
      (handle req env w).outcome
        = .resp (errResp "RATE_LIMITED_USER" 429 (some 3600)))
    ∧ (¬ (get_user_rate_limit_count w.auditTable w.dbNow uid
          ≥ USER_RATE_LIMIT) →
       get_global_rate_limit_count w.auditTable w.dbNow ≥ GLOBAL_RATE_LIMIT →
      (handle req env w).outcome
        = .resp (errResp "RATE_LIMITED_GLOBAL" 429 (some 300))) := by
  constructor
  · intro h
    simp [handle, authGate, authzGate, validateBody, replayGate, rateGate,
      hm, he1, he2, he3, he4, hah, hbear, hae, hau, hz, hb, hf1, hf2, hf3,
      hf4, hf5, hord, hem, hden, hpos.not_le, hmax.not_lt, hts, hage1, hage2,
      h, mkAudit, errResp]
  · intro h1 h2
    simp [handle, authGate, authzGate, validateBody, replayGate, rateGate,
      hm, he1, he2, he3, he4, hah, hbear, hae, hau, hz, hb, hf1, hf2, hf3,
      hf4, hf5, hord, hem, hden, hpos.not_le, hmax.not_lt, hts, hage1, hage2,
      h1, h2, mkAudit, errResp]

/-- One counted audit row for the fixture caller: result SUCCESS, timestamp
inside the trailing hour. -/
def tRow : DbAuditRow :=
  { user_id := some "uid-1", result := "SUCCESS", timestamp := 1 }

/-- A world whose audit table already holds ten counted entries for the
caller within the trailing hour, so the per-caller rate limit trips. -/
def tWorldRate : World :=
  { tWorld with
    dbNow := 3600,
    auditTable := [tRow, tRow, tRow, tRow, tRow, tRow, tRow, tRow, tRow, tRow] }

/-- Witness for C7 at a world with ten counted per-caller audit entries in
the trailing hour: the request is really rejected with RATE_LIMITED_USER,
HTTP 429, retry_after 3600. -/
theorem spec_C7_witness :
    (handle tReq tEnv tWorldRate).outcome
      = .resp (errResp "RATE_LIMITED_USER" 429 (some 3600)) := by
  have hwin : ((3600 : ℚ) - 3600 < 1) := by norm_num
  have hcount : get_user_rate_limit_count tWorldRate.auditTable
      tWorldRate.dbNow "uid-1" ≥ USER_RATE_LIMIT := by
    simp [get_user_rate_limit_count, rowCounted, tWorldRate, tWorld, tRow,
      USER_RATE_LIMIT, hwin]
  exact (spec_C7_rate_limit_order tReq tEnv tWorldRate tBody 3250 0
    "Bearer tok" "uid-1" "url" "key" "sq" "loc" rfl rfl rfl rfl rfl rfl
    (by decide) rfl rfl rfl rfl (by decide) (by decide) (by decide) rfl
    (by decide) (by decide) (by decide) (by decide) (by decide) (by decide)
    rfl (by simp [tWorldRate, tWorld, REPLAY_WINDOW_SECONDS])
    (by simp [tWorldRate, tWorld])).1 hcount

/-- Claim C9: when authentication and authorization have passed, each
failing validation rule (checked in source order: required fields, order
number format, email format, amount) terminates with HTTP 400 and its
per-field code, with no Square API call and no ledger write. -/
theorem spec_C9_validation_no_side_effects (req : Req) (env : Env)
    (w : World) (b : RequestBody) (ah uid u1 u2 u3 u4 : String)
    (hm : req.method = "POST")
    (he1 : env.supabaseUrl = some u1) (he2 : env.serviceKey = some u2)
    (he3 : env.squareToken = some u3) (he4 : env.locationId = some u4)
    (hah : req.authHeader = some ah) (hbear : startsWithBearer ah = true)
    (hae : w.auth.errorMsg = none) (hau : w.auth.user = some uid)
    (hz : w.isAuthorized = true)
    (hb : req.body = some b) :
    ((b.order_number = "" ∨ b.customer_name = "" ∨ b.customer_email = ""
        ∨ b.amount_cents = none ∨ b.request_timestamp = "") →
      (handle req env w).outcome
          = .resp (errResp "VALIDATION_MISSING_FIELD" 400 none)
        ∧ (handle req env w).squareCalls = []
        ∧ (handle req env w).ledgerOps = [])
    ∧ (∀ a, b.order_number ≠ "" → b.customer_name ≠ "" →
        b.customer_email ≠ "" → b.amount_cents = some a →
        b.request_timestamp ≠ "" →
        isValidOrderNumber b.order_number = false →
      (handle req env w).outcome
          = .resp (errResp "VALIDATION_INVALID_ORDER" 400 none)
        ∧ (handle req env w).squareCalls = []
        ∧ (handle req env w).ledgerOps = [])
    ∧ (∀ a, b.order_number ≠ "" → b.customer_name ≠ "" →
        b.customer_email ≠ "" → b.amount_cents = some a →
        b.request_timestamp ≠ "" →
        isValidOrderNumber b.order_number = true →
        isValidEmail b.customer_email = false →
      (handle req env w).outcome
          = .resp (errResp "VALIDATION_INVALID_EMAIL" 400 none)
        ∧ (handle req env w).squareCalls = []
        ∧ (handle req env w).ledgerOps = [])
    ∧ (∀ a, b.order_number ≠ "" → b.customer_name ≠ "" →
        b.customer_email ≠ "" → b.amount_cents = some a →
        b.request_timestamp ≠ "" →
        isValidOrderNumber b.order_number = true →
        isValidEmail b.customer_email = true →
        (¬ a.den = 1 ∨ a ≤ 0 ∨ a > MAX_AMOUNT_CENTS) →
      (handle req env w).outcome
          = .resp (errResp "VALIDATION_INVALID_AMOUNT" 400 none)
        ∧ (handle req env w).squareCalls = []
        ∧ (handle req env w).ledgerOps = []) := by
  refine ⟨?_, ?_, ?_, ?_⟩
  · intro hmiss
    simp [handle, authGate, authzGate, validateBody, hm, he1, he2, he3, he4,
      hah, hbear, hae, hau, hz, hb, hmiss, mkAudit, errResp]
  · intro a hf1 hf2 hf3 hf4 hf5 hbad
    simp [handle, authGate, authzGate, validateBody, hm, he1, he2, he3, he4,
      hah, hbear, hae, hau, hz, hb, hf1, hf2, hf3, hf4, hf5, hbad, mkAudit,
      errResp]
  · intro a hf1 hf2 hf3 hf4 hf5 hord hbad
    simp [handle, authGate, authzGate, validateBody, hm, he1, he2, he3, he4,
      hah, hbear, hae, hau, hz, hb, hf1, hf2, hf3, hf4, hf5, hord, hbad,
      mkAudit, errResp]
  · intro a hf1 hf2 hf3 hf4 hf5 hord hem hbad
    simp [handle, authGate, authzGate, validateBody, hm, he1, he2, he3, he4,
      hah, hbear, hae, hau, hz, hb, hf1, hf2, hf3, hf4, hf5, hord, hem,
      hbad, mkAudit, errResp]

/-- A request body with an oversized amount. -/
def tBodyBigAmount : RequestBody := { tBody with amount_cents := some 5000001 }

/-- A request carrying the oversized amount. -/
def tReqBigAmount : Req := { tReq with body := some tBodyBigAmount }

/-- Witness for C9 at a concrete over-ceiling amount. -/
theorem spec_C9_witness :
    (handle tReqBigAmount tEnv tWorld).outcome
      = .resp (errResp "VALIDATION_INVALID_AMOUNT" 400 none)
    ∧ (handle tReqBigAmount tEnv tWorld).squareCalls = []
    ∧ (handle tReqBigAmount tEnv tWorld).ledgerOps = [] :=
  ((spec_C9_validation_no_side_effects tReqBigAmount tEnv tWorld
    tBodyBigAmount "Bearer tok" "uid-1" "url" "key" "sq" "loc"
    rfl rfl rfl rfl rfl rfl (by decide) rfl rfl rfl rfl).2.2.2)
    5000001 (by decide) (by decide) (by decide) rfl (by decide) (by decide)
    (by decide) (Or.inr (Or.inr (by decide)))


/-- Claim C5: once the earlier gates pass, the replay guard rejects with
HTTP 400 REPLAY_REJECTED exactly the requests whose timestamp does not
parse, and those whose age (now minus request_timestamp, in seconds) lies
outside -30 ≤ age ≤ 120; any request inside the window never produces a
REPLAY_REJECTED response. -/
theorem spec_C5_replay_window (req : Req) (env : Env) (w : World)
    (b : RequestBody) (a : ℚ) (ah uid u1 u2 u3 u4 : String)
    (hm : req.method = "POST")
    (he1 : env.supabaseUrl = some u1) (he2 : env.serviceKey = some u2)
    (he3 : env.squareToken = some u3) (he4 : env.locationId = some u4)
    (hah : req.authHeader = some ah) (hbear : startsWithBearer ah = true)
    (hae : w.auth.errorMsg = none) (hau : w.auth.user = some uid)
    (hz : w.isAuthorized = true)
    (hb : req.body = some b)
    (hf1 : b.order_number ≠ "") (hf2 : b.customer_name ≠ "")
    (hf3 : b.customer_email ≠ "") (hf4 : b.amount_cents = some a)
    (hf5 : b.request_timestamp ≠ "")
    (hord : isValidOrderNumber b.order_number = true)
    (hem : isValidEmail b.customer_email = true)
    (hden : a.den = 1) (hpos : 0 < a) (hmax : a ≤ MAX_AMOUNT_CENTS) :
    (w.parsedTimestamp = none →
      (handle req env w).outcome
        = .resp (errResp "REPLAY_REJECTED" 400 none))
    ∧ ∀ tms, w.parsedTimestamp = some tms →
      ((handle req env w).outcome
          = .resp (errResp "REPLAY_REJECTED" 400 none)
        ↔ ((w.nowMs - tms) / 1000 > REPLAY_WINDOW_SECONDS
           ∨ (w.nowMs - tms) / 1000 < -30)) := by
  constructor
  · intro hts
    simp [handle, authGate, authzGate, validateBody, replayGate, hm, he1,
      he2, he3, he4, hah, hbear, hae, hau, hz, hb, hf1, hf2, hf3, hf4, hf5,
      hord, hem, hden, hpos.not_le, hmax.not_lt, hts, mkAudit, errResp]
  · intro tms hts
    by_cases hcond : ((w.nowMs - tms) / 1000 > REPLAY_WINDOW_SECONDS
        ∨ (w.nowMs - tms) / 1000 < -30)
    · refine iff_of_true ?_ hcond
      simp [handle, authGate, authzGate, validateBody, replayGate, hm, he1,
        he2, he3, he4, hah, hbear, hae, hau, hz, hb, hf1, hf2, hf3, hf4,
        hf5, hord, hem, hden, hpos.not_le, hmax.not_lt, hts, hcond, mkAudit,
        errResp]
    · refine iff_of_false ?_ hcond
      have hred : handle req env w = rateGate w uid b.order_number := by
        simp [handle, authGate, authzGate, validateBody, replayGate, hm, he1,
          he2, he3, he4, hah, hbear, hae, hau, hz, hb, hf1, hf2, hf3, hf4,
          hf5, hord, hem, hden, hpos.not_le, hmax.not_lt, hts, hcond]
      rw [hred]
      simp only [rateGate, recordPhase, sagaPhase]
      repeat'
        first
        | split
        | (simp [mkAudit, mk0, errResp]; done)

/-- A fixture world whose millisecond clock is the given value while the
request timestamp parses to zero, so the age is the value divided by
1000. -/
def wAgeMs (d : ℚ) : World := { tWorld with nowMs := d }

/-- Witness for C5, exercising the boundary: age 120.0 s passes the guard,
120.1 s is rejected, -30.0 s passes, -30.1 s is rejected. -/
theorem spec_C5_witness :
    (handle tReq tEnv (wAgeMs 120000)).outcome
        ≠ .resp (errResp "REPLAY_REJECTED" 400 none)
    ∧ (handle tReq tEnv (wAgeMs 120100)).outcome
        = .resp (errResp "REPLAY_REJECTED" 400 none)
    ∧ (handle tReq tEnv (wAgeMs (-30000))).outcome
        ≠ .resp (errResp "REPLAY_REJECTED" 400 none)
    ∧ (handle tReq tEnv (wAgeMs (-30100))).outcome
        = .resp (errResp "REPLAY_REJECTED" 400 none) := by
  have key : ∀ d : ℚ, (handle tReq tEnv (wAgeMs d)).outcome
        = .resp (errResp "REPLAY_REJECTED" 400 none)
      ↔ (((wAgeMs d).nowMs - 0) / 1000 > REPLAY_WINDOW_SECONDS
         ∨ ((wAgeMs d).nowMs - 0) / 1000 < -30) := by
    intro d
    exact (spec_C5_replay_window tReq tEnv (wAgeMs d) tBody 3250
      "Bearer tok" "uid-1" "url" "key" "sq" "loc" rfl rfl rfl rfl rfl rfl
      (by decide) rfl rfl rfl rfl (by decide) (by decide) (by decide) rfl
      (by decide) (by decide) (by decide) (by decide) (by decide)
      (by decide)).2 0 rfl
  refine ⟨?_, ?_, ?_, ?_⟩
  · intro hc
    exact absurd ((key 120000).mp hc)
      (by norm_num [wAgeMs, tWorld, REPLAY_WINDOW_SECONDS])
  · exact (key 120100).mpr
      (by norm_num [wAgeMs, tWorld, REPLAY_WINDOW_SECONDS])
  · intro hc
    exact absurd ((key (-30000)).mp hc)
      (by norm_num [wAgeMs, tWorld, REPLAY_WINDOW_SECONDS])
  · exact (key (-30100)).mpr
      (by norm_num [wAgeMs, tWorld, REPLAY_WINDOW_SECONDS])

/-- Claim C6: once the earlier gates pass, an amount is rejected with HTTP
400 VALIDATION_INVALID_AMOUNT exactly when it is not an integer with
0 < amount_cents ≤ 5000000; an accepted amount never produces that
response, so the ceiling itself passes and ceiling + 1, zero, negatives and
non-integers are rejected. -/
theorem spec_C6_amount_validation (req : Req) (env : Env) (w : World)
    (b : RequestBody) (ah uid u1 u2 u3 u4 : String)
    (hm : req.method = "POST")
    (he1 : env.supabaseUrl = some u1) (he2 : env.serviceKey = some u2)
    (he3 : env.squareToken = some u3) (he4 : env.locationId = some u4)
    (hah : req.authHeader = some ah) (hbear : startsWithBearer ah = true)
    (hae : w.auth.errorMsg = none) (hau : w.auth.user = some uid)
    (hz : w.isAuthorized = true)
    (hb : req.body = some b)
    (hf1 : b.order_number ≠ "") (hf2 : b.customer_name ≠ "")
    (hf3 : b.customer_email ≠ "") (hf5 : b.request_timestamp ≠ "")
    (hord : isValidOrderNumber b.order_number = true)
    (hem : isValidEmail b.customer_email = true) :
    ∀ a, b.amount_cents = some a →
      ((handle req env w).outcome
          = .resp (errResp "VALIDATION_INVALID_AMOUNT" 400 none)
        ↔ ¬ (a.den = 1 ∧ 0 < a ∧ a ≤ MAX_AMOUNT_CENTS)) := by
  intro a hf4
  have hiff : (¬ (a.den = 1 ∧ 0 < a ∧ a ≤ MAX_AMOUNT_CENTS))
      ↔ (¬ a.den = 1 ∨ a ≤ 0 ∨ a > MAX_AMOUNT_CENTS) := by
    rw [not_and_or, not_and_or, not_lt, not_le]
  rw [hiff]
  by_cases hcond : (¬ a.den = 1 ∨ a ≤ 0 ∨ a > MAX_AMOUNT_CENTS)
  · refine iff_of_true ?_ hcond
    simp [handle, authGate, authzGate, validateBody, hm, he1, he2, he3, he4,
      hah, hbear, hae, hau, hz, hb, hf1, hf2, hf3, hf4, hf5, hord, hem,
      hcond, mkAudit, errResp]
  · refine iff_of_false ?_ hcond
    have hred : handle req env w = replayGate w uid b.order_number := by
      simp [handle, authGate, authzGate, validateBody, hm, he1, he2, he3,
        he4, hah, hbear, hae, hau, hz, hb, hf1, hf2, hf3, hf4, hf5, hord,
        hem, hcond]
    rw [hred]
    simp only [replayGate, rateGate, recordPhase, sagaPhase]
    repeat'
      first
      | split
      | (simp [mkAudit, mk0, errResp]; done)

/-- A request whose amount sits exactly at the configured ceiling. -/
def tReqMaxAmount : Req :=
  { tReq with body := some { tBody with amount_cents := some 5000000 } }

/-- Witness for C6 at the boundary: the ceiling itself is not rejected as an
invalid amount, and the over-ceiling request from the C9 fixtures is. -/
theorem spec_C6_witness :
    (handle tReqMaxAmount tEnv tWorld).outcome
        ≠ .resp (errResp "VALIDATION_INVALID_AMOUNT" 400 none)
    ∧ (handle tReqBigAmount tEnv tWorld).outcome
        = .resp (errResp "VALIDATION_INVALID_AMOUNT" 400 none) := by
  constructor
  · intro hc
    have key := spec_C6_amount_validation tReqMaxAmount tEnv tWorld
      { tBody with amount_cents := some 5000000 } "Bearer tok" "uid-1"
      "url" "key" "sq" "loc" rfl rfl rfl rfl rfl rfl (by decide) rfl rfl
      rfl rfl (by decide) (by decide) (by decide) (by decide) (by decide)
      (by decide) 5000000 rfl
    exact absurd (key.mp hc) (by simp [MAX_AMOUNT_CENTS])
  · have key := spec_C6_amount_validation tReqBigAmount tEnv tWorld
      tBodyBigAmount "Bearer tok" "uid-1" "url" "key" "sq" "loc" rfl rfl
      rfl rfl rfl rfl (by decide) rfl rfl rfl rfl (by decide) (by decide)
      (by decide) (by decide) (by decide) (by decide) 5000001 rfl
    exact key.mpr (by intro hok; exact absurd hok.2.2 (by decide))

end CultiveraSquare
